import Mathlib

/-!
# Verification of the `search_that` search-aggregation plugin

Shallow embedding of `src/main.py` (class `SearchThatPlugin`).  Python
strings are modelled as `List Char`; Python `None`-able values as `Option`;
network I/O and the behaviour of the `re` module on the per-site HTML
extraction patterns are passed in as explicit parameters (oracles), so that
every claim is quantified over all possible responses / match lists.
The four identifier patterns of `_separate` are small enough to be embedded
directly: each quantifier in them applies to a single character class and
the only lookarounds are a negative lookbehind at the start of the match and
a negative lookahead at its end, so a faithful leftmost/greedy backtracking
matcher is defined below and instantiated with the four patterns.
-/

namespace SearchThat

/-- Python `str` is modelled as a list of characters. -/
abbrev Str := List Char

/-- Python `needle in hay` (substring containment) on strings. -/
def pyIn (needle : Str) : Str → Bool
  | [] => needle.isEmpty
  | c :: t => needle.isPrefixOf (c :: t) || pyIn needle t

/-- Python truthiness of an `Optional[str]`: `None` and `""` are falsy. -/
def truthyO : Option Str → Bool
  | none => false
  | some v => !v.isEmpty

/-- Python `a or b` for `a : Optional[str]` and a string default `b`. -/
def pyOr (a : Option Str) (d : Str) : Str :=
  match a with
  | none => d
  | some v => if v.isEmpty then d else v

/-- Python `s.isdigit()` (restricted to ASCII digits): nonempty and all digits. -/
def pyIsDigit (s : Str) : Bool :=
  !s.isEmpty && s.all Char.isDigit

/-- Python `int(s)` for a digit string (value of the decimal numeral). -/
def pyToNat (s : Str) : Nat :=
  s.foldl (fun acc c => acc * 10 + (c.toNat - '0'.toNat)) 0

/-! ## ActressLookup (`actress_search_handler`, `_format_actress_info`)

The three per-source fetchers (`_fetch_av2ch_info`, `_fetch_wikipedia_info`,
`_fetch_avwiki_info`) are network code; their outcomes enter the model as the
list `results : List (Option ActressInfo)`, in the fixed order
av2ch, Wikipedia, av-wiki in which `asyncio.gather` returns them. -/

/-- The per-source record `{year, height, measurements}` (each `Optional[str]`). -/
structure ActressInfo where
  year : Option Str
  height : Option Str
  measurements : Option Str
deriving DecidableEq, Repr

/-- One step of the merge loop in `actress_search_handler` (lines 380-388):
`if res.get(f) and not final_info.get(f): final_info[f] = res[f]` for each
of the three fields, guarded by `if res:`. -/
def mergeStep (acc : ActressInfo) (res : Option ActressInfo) : ActressInfo :=
  match res with
  | none => acc
  | some r =>
    { year := if truthyO r.year && !truthyO acc.year then r.year else acc.year
      height := if truthyO r.height && !truthyO acc.height then r.height else acc.height
      measurements :=
        if truthyO r.measurements && !truthyO acc.measurements then r.measurements
        else acc.measurements }

/-- The field-wise merge over the gathered source results, starting from
`{"year": None, "height": None, "measurements": None}`. -/
def mergeActressResults (results : List (Option ActressInfo)) : ActressInfo :=
  results.foldl mergeStep ⟨none, none, none⟩

/-- `_format_actress_info` (lines 405-418): default each field with `or '?'`,
return `None` when every field defaulted to `'?'`, otherwise decorate a
numeric height of at least 168 and build the three-line output. -/
def _format_actress_info (year height measurements : Option Str) : Option Str :=
  let y := pyOr year ['?']
  let h := pyOr height ['?']
  let m := pyOr measurements ['?']
  if y = ['?'] ∧ h = ['?'] ∧ m = ['?'] then none
  else
    let h2 := if pyIsDigit h && decide (pyToNat h ≥ 168) then '⭐' :: h else h
    some (("[出生] ").toList ++ y ++ ('\n' :: ("[身高] ").toList) ++ h2 ++
      ('\n' :: ("[三围] ").toList) ++ m)

/-- The candidate value one gathered result contributes for one field
(`None` when the whole source returned `None`). -/
def fieldCand (f : ActressInfo → Option Str) : Option ActressInfo → Option Str
  | none => none
  | some a => f a

/-- First truthy (non-`None`, non-empty) value in a list of candidates. -/
def firstTruthy (l : List (Option Str)) : Option Str :=
  l.findSome? fun o =>
    match o with
    | some v => if v.isEmpty then none else some v
    | none => none

/-- Modelled from the spec: §4.5's merge policy in the spec's own words,
"for each field (year, height, measurements), take the first non-null value
scanning sources in a fixed priority order".  Used only to compare with the
source-derived `mergeActressResults`. -/
def specFirstNonNullMerge (results : List (Option ActressInfo)) : ActressInfo :=
  { year := (results.map (fieldCand ActressInfo.year)).findSome? id
    height := (results.map (fieldCand ActressInfo.height)).findSome? id
    measurements := (results.map (fieldCand ActressInfo.measurements)).findSome? id }

/-! ## Search results and HTML extraction (`_parse_html`)

The per-site extraction regexes run on network-supplied HTML; their match
lists enter the model through a `RegexOracle`, one field per `elif` branch of
`_parse_html`, holding the capture-group tuples `finditer`/`search` would
produce in document order.  All claims about `_parse_html` are quantified
over every oracle, i.e. over every possible behaviour of those patterns. -/

structure SearchResult where
  title : Str
  url : Str
deriving DecidableEq, Repr

inductive SearchType
  | cen
  | unc
deriving DecidableEq, Repr

/-- Python `str.strip()`: drop leading and trailing whitespace. -/
def pyStrip (s : Str) : Str :=
  ((s.dropWhile Char.isWhitespace).reverse.dropWhile Char.isWhitespace).reverse

def subZhong : Str := ("中文字幕").toList
def subPo : Str := ("无码破解").toList
def subPoLiu : Str := ("无码流出").toList
def subPoMu : Str := ("無修正").toList
def subPoPian : Str := ("无码影片").toList
def tagZhong : Str := ("[中字] ").toList
def tagPo : Str := ("[破解] ").toList
def strChinese : Str := ("chinese").toList
def strReducing : Str := ("reducing").toList

/-- One match of the 7mmtv.sx branch: groups `(page_url, title)`; `[中字]` is
prefixed when the page URL contains "chinese", then `[破解]` when it
contains "reducing" (censored search only). -/
def extract7mm (st : SearchType) (m : Str × Str) : SearchResult :=
  let t0 := pyStrip m.2
  let t1 := if st = SearchType.cen ∧ pyIn strChinese m.1 then tagZhong ++ t0 else t0
  let t2 := if st = SearchType.cen ∧ pyIn strReducing m.1 then tagPo ++ t1 else t1
  ⟨t2, m.1⟩

/-- One match of the supjav.com branch: groups `(page_url, title)`; `[破解]`
is prefixed when the title contains one of the three trigger substrings, then
`[中字]` when the (possibly already prefixed) title contains 中文字幕. -/
def extractSupjav (st : SearchType) (m : Str × Str) : SearchResult :=
  let t0 := pyStrip m.2
  let t1 :=
    if st = SearchType.cen ∧ (pyIn subPo t0 || pyIn subPoLiu t0 || pyIn subPoMu t0) then
      tagPo ++ t0
    else t0
  let t2 := if st = SearchType.cen ∧ pyIn subZhong t1 then tagZhong ++ t1 else t1
  ⟨t2, m.1⟩

/-- One thumbnail container of the missav.ai branch: the container HTML and
the inner regex's optional `(page_url, title)` match; tag triggers are looked
up in the container HTML. -/
def extractMissav (st : SearchType) (c : Str × Option (Str × Str)) : Option SearchResult :=
  match c.2 with
  | none => none
  | some m =>
    let t0 := pyStrip m.2
    let t1 := if st = SearchType.cen ∧ pyIn subZhong c.1 then tagZhong ++ t0 else t0
    let t2 := if st = SearchType.cen ∧ pyIn subPoPian c.1 then tagPo ++ t1 else t1
    some ⟨t2, m.1⟩

/-- One match of the jable.tv / jav.guru branches: groups `(page_url, title)`,
title stripped, no tagging. -/
def extractPair (m : Str × Str) : SearchResult := ⟨pyStrip m.2, m.1⟩

def av123Origin : Str := ("https://123av.com").toList

/-- One match of the 123av.com branch: the relative page URL is resolved
against `https://123av.com/zh/`. -/
def extract123 (m : Str × Str) : SearchResult :=
  ⟨pyStrip m.2, av123Origin ++ ("/zh/").toList ++ m.1⟩

def jav777Mark (code : Str) : Str := ("【番號】︰").toList ++ code

def jav777Title (code : Str) : Str := tagZhong ++ code ++ (" (jav777)").toList

/-- The `fetch_detail` coroutine of the jav777.xyz branch: its own
`except Exception: return []` makes a failed detail fetch empty; on success
the result is kept only when the detail page contains `【番號】︰{code}`. -/
def jav777FetchDetail (detail : Except Unit Str) (code du : Str) : List SearchResult :=
  match detail with
  | .error _ => []
  | .ok dh => if pyIn (jav777Mark code) dh then [⟨jav777Title code, du⟩] else []

/-- The regex-match data of one response, one field per `_parse_html` branch. -/
structure RegexOracle where
  mm7 : List (Str × Str)
  supjav : List (Str × Str)
  missav : List (Str × Option (Str × Str))
  jable : List (Str × Str)
  javguru : List (Str × Str)
  av123 : List (Str × Str)
  jav777First : Option Str
  jav777Detail : Except Unit Str

def d7mm : Str := ("7mmtv.sx").toList
def dSup : Str := ("supjav.com").toList
def dMiss : Str := ("missav.ai").toList
def dJable : Str := ("jable.tv").toList
def dGuru : Str := ("jav.guru").toList
def d123 : Str := ("123av.com").toList
def d777 : Str := ("jav777.xyz").toList
def strQs : Str := ("?s=").toList

/-- The dispatch chain of `_parse_html` (lines 221-297).  `Sum.inl` is the
normal path ending in `return results[:5]`; `Sum.inr` is the early `return`
inside the jav777.xyz branch, which bypasses the truncation. -/
def parseBody (clientUp : Bool) (o : RegexOracle) (final_url code : Str)
    (st : SearchType) : Sum (List SearchResult) (List SearchResult) :=
  if pyIn d7mm final_url then .inl (o.mm7.map (extract7mm st))
  else if pyIn dSup final_url then .inl (o.supjav.map (extractSupjav st))
  else if pyIn dMiss final_url then .inl (o.missav.filterMap (extractMissav st))
  else if pyIn dJable final_url then .inl (o.jable.map extractPair)
  else if pyIn dGuru final_url then .inl (o.javguru.map extractPair)
  else if pyIn d123 final_url then .inl (o.av123.map extract123)
  else if pyIn d777 final_url then
    if pyIn strQs final_url then
      match o.jav777First with
      | some du =>
        if clientUp then .inr (jav777FetchDetail o.jav777Detail code du) else .inl []
      | none => .inl []
    else .inl []
  else .inl []

/-- `_parse_html` (lines 213-302): run the matching branch and truncate to 5
(`results[:5]`), except for the jav777 early return. -/
def _parse_html (clientUp : Bool) (o : RegexOracle) (final_url code : Str)
    (st : SearchType) : List SearchResult :=
  match parseBody clientUp o final_url code st with
  | .inl results => results.take 5
  | .inr early => early

/-! ## Crawling (`_crawl`) and ranking (`_search_worker`) -/

/-- Python `s.replace(pat, rep)` (leftmost, non-overlapping); fueled by the
length of `s`, which suffices because `pat` is nonempty at every use site. -/
def pyReplaceAux (pat rep : Str) : Nat → Str → Str
  | 0, s => s
  | _ + 1, [] => []
  | f + 1, c :: t =>
    if pat.isPrefixOf (c :: t) then rep ++ pyReplaceAux pat rep f ((c :: t).drop pat.length)
    else c :: pyReplaceAux pat rep f t

def pyReplace (pat rep s : Str) : Str :=
  if pat.isEmpty then s else pyReplaceAux pat rep s.length s

/-- Python `s.split(sep)` for a nonempty multi-character separator. -/
def pySplitStrAux (sep : Str) : Nat → Str → List Str
  | 0, s => [s]
  | _ + 1, [] => [[]]
  | f + 1, c :: t =>
    if sep.isPrefixOf (c :: t) then [] :: pySplitStrAux sep f ((c :: t).drop sep.length)
    else
      match pySplitStrAux sep f t with
      | [] => [[c]]
      | p :: ps => (c :: p) :: ps

def pySplitStr (sep s : Str) : List Str :=
  if sep.isEmpty then [s] else pySplitStrAux sep s.length s

structure BuiltRequest where
  url : Str
  method : Str
  payload : Option Str
deriving DecidableEq, Repr

def postDelim : Str := ("#POST#").toList

def placeholder : Str := ("%s").toList

/-- Request construction of `_crawl` (lines 182-188): split on `#POST#`, a
second segment means POST with that segment as payload template, substitute
the identifier for `%s` in both URL and payload. -/
def buildRequest (url_str code : Str) : BuiltRequest :=
  let parts := pySplitStr postDelim url_str
  let url := parts.headD []
  let method := if parts.length > 1 then ("POST").toList else ("GET").toList
  let payload_template := if parts.length > 1 then parts.getD 1 [] else []
  { url := pyReplace placeholder code url
    method := method
    payload :=
      if payload_template.isEmpty then none
      else some (pyReplace placeholder code payload_template) }

/-- The extraction-exception path of `_parse_html`: its own `try/except`
(lines 220, 299-302) catches any exception raised while a branch is
accumulating matches and falls through to `return results[:5]` with the
partially accumulated list — an interruption after `n` appends leaves the
first `n` results of the active branch.  The jav777 early-return path never
appends before returning, so an exception raised there (e.g. by the
`run_coroutine_threadsafe(...).result()` call) leaves `results = []`. -/
def _parse_html_interrupted (clientUp : Bool) (o : RegexOracle) (n : Nat)
    (final_url code : Str) (st : SearchType) : List SearchResult :=
  match parseBody clientUp o final_url code st with
  | .inl results => (results.take n).take 5
  | .inr _ => []

/-- A received response as `_crawl` sees it: `status` is `response.status`,
which `_crawl` never consults (there is no status check in lines 195-207 —
the body of a non-200 response is parsed like any other); `parseExc = some n`
means an extraction exception is raised inside `_parse_html` after `n`
results were appended (caught there, never reaching `_crawl`). -/
structure CrawlResponse where
  status : Nat
  final_url : Str
  oracle : RegexOracle
  parseExc : Option Nat

/-- `_crawl` (lines 175-211).  The network call is abstracted as
`resp : Except Str CrawlResponse`: `.error` is an exception raised by the
request or the body read (connection error, timeout, decode failure), caught
by the `try/except` of lines 195-211 which returns `[]`; `.ok` is a received
response — of any status — handed to `_parse_html`, whose own internal
`except` turns an extraction exception into the partial `results[:5]`.
The function is total: no failure escapes. -/
def _crawl (clientUp : Bool) (resp : Except Str CrawlResponse) (code : Str)
    (st : SearchType) : List SearchResult :=
  if !clientUp then []
  else
    match resp with
    | .error _ => []
    | .ok r =>
      match r.parseExc with
      | none => _parse_html clientUp r.oracle r.final_url code st
      | some n => _parse_html_interrupted clientUp r.oracle n r.final_url code st

/-- Encode a Python bool 2-tuple for comparison: lexicographic order on
`(False < True)` pairs coincides with `Nat` order on `2·fst + snd`. -/
def keyNat (p : Bool × Bool) : Nat := 2 * p.1.toNat + p.2.toNat

/-- Comparison by a `Nat`-valued key. -/
def keyRel {α : Type} (key : α → Nat) (a b : α) : Prop := key a ≤ key b

instance {α : Type} (key : α → Nat) : DecidableRel (keyRel key) := fun a b =>
  inferInstanceAs (Decidable (key a ≤ key b))

/-- Python `sorted(l, key=...)` is a stable sort by the key; a stable sort by
a total preorder has a unique result, so insertion sort (stability proven
below) is a faithful model. -/
def pySortByKey {α : Type} (key : α → Nat) (l : List α) : List α :=
  List.insertionSort (keyRel key) l

/-- The sort key of the censored ranking, as a Bool pair
(`'无码破解' not in title`, `'中文字幕' not in title`) or the swap, selected
by `mosaic_reduce_first`. -/
def cenKey (mosaicFirst : Bool) (r : SearchResult) : Bool × Bool :=
  if mosaicFirst then (!pyIn subPo r.title, !pyIn subZhong r.title)
  else (!pyIn subZhong r.title, !pyIn subPo r.title)

/-- `_search_worker` (lines 152-172) after the network fan-out: the gathered
per-engine result lists arrive as `results_nested` (in configured engine
order), are flattened, and the censored category is ranked by one of the two
tuple keys. -/
def _search_worker (mosaicFirst : Bool) (st : SearchType)
    (results_nested : List (List SearchResult)) : List SearchResult :=
  let all_results := results_nested.flatten
  if st = SearchType.cen ∧ mosaicFirst then
    pySortByKey (fun x => keyNat (!pyIn subPo x.title, !pyIn subZhong x.title)) all_results
  else if st = SearchType.cen then
    pySortByKey (fun x => keyNat (!pyIn subZhong x.title, !pyIn subPo x.title)) all_results
  else all_results

/-- Modelled from the spec: §4.2 defines the decensored tag as the bracketed
marker `[破解]` prefixed onto titles; this predicate (presence of that
marker) is the spec's reading of "decensored tag presence", for comparison
with the substring key the code actually sorts by. -/
def specHasDecTag (t : Str) : Bool := pyIn (("[破解]").toList) t

/-! ## The search handler's aggregation and fallback (`search_handler`) -/

/-- `filter_results` (lines 75-78): drop results whose title contains any
configured error keyword; an empty keyword list keeps everything. -/
def filter_results (error_keywords : List Str) (results : List SearchResult) :
    List SearchResult :=
  if error_keywords.isEmpty then results
  else results.filter fun res => !error_keywords.any fun kw => pyIn kw res.title

def googleUrl (code : Str) : Str :=
  ("https://www.google.com/search?q=").toList ++ code ++ ("%20jav").toList

def fallbackMsg (code : Str) : List Str :=
  [("所有引擎均未找到结果, 你可以尝试: \n").toList,
   ("Google 搜索: ").toList ++ googleUrl code]

inductive HandlerOutcome
  | fallback (msg : List Str)
  | chosen (rep : SearchResult)
deriving DecidableEq, Repr

/-- The aggregation step of `search_handler` (lines 72-94): filter both
category lists, concatenate censored then uncensored, emit the Google
fallback when the merged list is empty, otherwise pick the first result as
representative. -/
def search_handler_select (error_keywords : List Str)
    (cen_results unc_results : List SearchResult) (code : Str) : HandlerOutcome :=
  let cen2 := filter_results error_keywords cen_results
  let unc2 := filter_results error_keywords unc_results
  let all_results := cen2 ++ unc2
  match all_results with
  | [] => .fallback (fallbackMsg code)
  | r :: _ => .chosen r

/-! ## Cover URL extraction (`_get_cover_url_from_html`)

`re.search(regex, html)` for the configured per-domain patterns is abstracted
as `oracle : Str → Str → Option Str`, giving the first capture group of the
match of `regex` on `html` when the pattern matches. -/

inductive PyErr
  | indexError
deriving DecidableEq, Repr

/-- Python `s.split(sep)` for a single-character separator. -/
def pySplit (sep : Char) : Str → List Str
  | [] => [[]]
  | c :: t =>
    if c = sep then [] :: pySplit sep t
    else
      match pySplit sep t with
      | [] => [[c]]
      | p :: ps => (c :: p) :: ps

/-- Python `s.split(sep, 1)`: split at the first separator only. -/
def pySplitOnce (sep : Char) : Str → List Str
  | [] => [[]]
  | c :: t =>
    if c = sep then [[], t]
    else
      match pySplitOnce sep t with
      | [] => [[c]]
      | p :: ps => (c :: p) :: ps

/-- A configured cover rule, in either accepted encoding: the string form
`"domain|regex"` or the dict form `{"domain": ..., "regex": ...}`. -/
inductive RuleItem
  | strRule (s : Str)
  | dictRule (domain : Option Str) (regex : Option Str)
deriving DecidableEq, Repr

/-- Rule-item parsing of `_get_cover_url_from_html` (lines 313-321). -/
def parseRuleItem : RuleItem → Option Str × Option Str
  | .strRule s =>
    let parts := pySplitOnce '|' s
    if parts.length = 2 then (some (parts.getD 0 []), some (parts.getD 1 []))
    else (none, none)
  | .dictRule d r => (d, r)

def startsWithHttp (s : Str) : Bool := (("http").toList).isPrefixOf s

/-- Candidate resolution (lines 326-329): a capture not starting with "http"
is resolved against `https://{current_domain}`. -/
def resolveCoverUrl (host g : Str) : Str :=
  if startsWithHttp g then g else ("https://").toList ++ host ++ g

/-- The rule loop of `_get_cover_url_from_html` (lines 309-330): first rule
whose domain equals the current domain, whose regex is truthy and whose
pattern matches wins; a domain-matching rule whose pattern does not match
does not stop the scan. -/
def coverScan (oracle : Str → Str → Option Str) (host html : Str) :
    List RuleItem → Option Str
  | [] => none
  | item :: rest =>
    match parseRuleItem item with
    | (some domain, some regex) =>
      if domain = host ∧ ¬regex.isEmpty then
        match oracle regex html with
        | some g => some (resolveCoverUrl host g)
        | none => coverScan oracle host html rest
      else coverScan oracle host html rest
    | _ => coverScan oracle host html rest

/-- `_get_cover_url_from_html` (lines 304-330).  `url.split('/')[2]` raises
`IndexError` when the URL has no third slash-separated segment; this is kept
as the `Except` error case. -/
def _get_cover_url_from_html (oracle : Str → Str → Option Str)
    (rules : List RuleItem) (url html : Str) : Except PyErr (Option Str) :=
  match (pySplit '/' url)[2]? with
  | none => .error .indexError
  | some current_domain => .ok (coverScan oracle current_domain html rules)

/-- One rule's successful capture, for the first-match characterisation:
`some g` exactly when the rule's parsed domain equals the host, its regex is
truthy and the pattern matches with capture `g`. -/
def coverHit (oracle : Str → Str → Option Str) (host html : Str)
    (item : RuleItem) : Option Str :=
  match parseRuleItem item with
  | (some domain, some regex) =>
    if domain = host ∧ ¬regex.isEmpty then oracle regex html else none
  | _ => none

/-! ## The identifier normalizer (`_separate`)

The four patterns of `_separate` (lines 138-143) share a restricted shape:
a negative lookbehind class at the start of the match, a sequence (with one
alternation, distributed below over its common suffix, preserving Python's
left-to-right alternative order) of single character classes each under one
quantifier, and a negative lookahead class at the end.  `reSearch` below
implements Python `re.search` for exactly that shape: leftmost start
position first, alternatives in order, greedy quantifiers with backtracking
(counts tried from the largest feasible down to the minimum).  Character
classes are ASCII, matching `[a-z]`/`[0-9]` under `re.IGNORECASE`. -/

/-- Length of the maximal prefix run of characters in the class. -/
def runLen (cls : Char → Bool) : Str → Nat
  | [] => 0
  | c :: t => if cls c then runLen cls t + 1 else 0

/-- One quantified character class `cls{lo,hi}` (`hi = none` is unbounded). -/
structure ClassRep where
  cls : Char → Bool
  lo : Nat
  hi : Option Nat

/-- The trailing negative lookahead: succeeds at end of input or when the
next character is not in the class. -/
def negOk (neg : Char → Bool) : Str → Bool
  | [] => true
  | c :: _ => !neg c

/-- Try `f n, f (n-1), ..., f 0` and return the first `some` (the greedy
descent over repeat counts). -/
def firstSome (f : Nat → Option Nat) : Nat → Option Nat
  | 0 => f 0
  | n + 1 =>
    match f (n + 1) with
    | some v => some v
    | none => firstSome f n

/-- Backtracking matcher for a sequence of quantified classes against a
prefix of `rest`, returning the number of characters consumed; the final
negative lookahead `neg` is checked when the sequence is exhausted.  For
each class the feasible counts are `lo .. min hi (maximal run)`, tried
greedily (largest first), backtracking into the remaining sequence.  The
fuel is structural; `matchSeq` supplies `length + 1`, which is exact since
every step consumes one `ClassRep`. -/
def matchSeqAux (neg : Char → Bool) : Nat → List ClassRep → Str → Option Nat
  | 0, _, _ => none
  | _ + 1, [], rest => if negOk neg rest then some 0 else none
  | fuel + 1, r :: rs, rest =>
    let maxRun := runLen r.cls rest
    let hi := match r.hi with | none => maxRun | some b => min b maxRun
    if hi < r.lo then none
    else
      firstSome
        (fun j => (matchSeqAux neg fuel rs (rest.drop (r.lo + j))).map
          (fun k => k + (r.lo + j)))
        (hi - r.lo)

def matchSeq (neg : Char → Bool) (br : List ClassRep) (rest : Str) : Option Nat :=
  matchSeqAux neg (br.length + 1) br rest

/-- One of the four compiled patterns: negative-lookbehind class, alternative
branches in Python's order, negative-lookahead class. -/
structure RePattern where
  lb : Char → Bool
  branches : List (List ClassRep)
  la : Char → Bool

/-- Attempt a match starting at the current position (`prev` is the
character before it, for the lookbehind); branches tried in order. -/
def tryAt (p : RePattern) (prev : Option Char) (rest : Str) : Option Nat :=
  match prev with
  | some c =>
    if p.lb c then none else p.branches.findSome? fun br => matchSeq p.la br rest
  | none => p.branches.findSome? fun br => matchSeq p.la br rest

/-- Scan start positions left to right; on success return the matched span
(`match.group(0)`). -/
def searchAux (p : RePattern) : Option Char → Str → Option Str
  | prev, [] =>
    match tryAt p prev [] with
    | some _ => some []
    | none => none
  | prev, c :: t =>
    match tryAt p prev (c :: t) with
    | some len => some ((c :: t).take len)
    | none => searchAux p (some c) t

/-- Python `pattern.search(text)` for this pattern shape. -/
def reSearch (p : RePattern) (t : Str) : Option Str := searchAux p none t

def isAlphaC (c : Char) : Bool := c.isAlpha
def isDigitC (c : Char) : Bool := c.isDigit
def isAlnumC (c : Char) : Bool := c.isAlpha || c.isDigit
def isSepC (c : Char) : Bool := c = '-' || c = '_'
def isAlnumSepC (c : Char) : Bool := c.isAlpha || c.isDigit || c = '-' || c = '_'

/-- Pattern 1: `(?<![a-z0-9])[0-9]{5,}[_-][0-9]{2,5}(?![a-z0-9])`. -/
def pat1 : RePattern :=
  { lb := isAlnumC
    branches := [[⟨isDigitC, 5, none⟩, ⟨isSepC, 1, some 1⟩, ⟨isDigitC, 2, some 5⟩]]
    la := isAlnumC }

/-- Pattern 2:
`((?<![a-z0-9])([0-9]*[a-z]+|[a-z]+[0-9]+[a-z]*))[_-]([a-z]*[0-9]{2,5}(?![0-9]))`;
the alternation is distributed over the common suffix `[_-][a-z]*[0-9]{2,5}`,
which preserves the backtracking order (first alternative explored fully,
then the second). -/
def pat2 : RePattern :=
  { lb := isAlnumC
    branches :=
      [[⟨isDigitC, 0, none⟩, ⟨isAlphaC, 1, none⟩, ⟨isSepC, 1, some 1⟩,
        ⟨isAlphaC, 0, none⟩, ⟨isDigitC, 2, some 5⟩],
       [⟨isAlphaC, 1, none⟩, ⟨isDigitC, 1, none⟩, ⟨isAlphaC, 0, none⟩,
        ⟨isSepC, 1, some 1⟩, ⟨isAlphaC, 0, none⟩, ⟨isDigitC, 2, some 5⟩]]
    la := isDigitC }

/-- Pattern 3: `(?<![a-z0-9])[a-z]+[0-9]{3,}(?![a-z0-9])`. -/
def pat3 : RePattern :=
  { lb := isAlnumC
    branches := [[⟨isAlphaC, 1, none⟩, ⟨isDigitC, 3, none⟩]]
    la := isAlnumC }

/-- Pattern 4: `(?<![a-z0-9])[0-9]{4,}(?![a-z0-9-_])`. -/
def pat4 : RePattern :=
  { lb := isAlnumC
    branches := [[⟨isDigitC, 4, none⟩]]
    la := isAlnumSepC }

def sepMatchers : List RePattern := [pat1, pat2, pat3, pat4]

/-- The em-dash preprocessing `text_content.replace("—", "-")`. -/
def pyCleanText (t : Str) : Str := t.map fun c => if c = '—' then '-' else c

/-- `_separate` (lines 129-150): empty input is falsy, otherwise replace
em-dashes and return the first match of the first pattern (in priority
order) that matches anywhere. -/
def _separate (t : Str) : Option Str :=
  if t.isEmpty then none
  else sepMatchers.findSome? fun p => reSearch p (pyCleanText t)

/-! ### Lemmas about the actress merge and formatting -/

/-- One field's worth of one merge step. -/
def fieldStep (a c : Option Str) : Option Str :=
  if truthyO c && !truthyO a then c else a

theorem mergeStep_year (acc : ActressInfo) (res : Option ActressInfo) :
    (mergeStep acc res).year = fieldStep acc.year (fieldCand ActressInfo.year res) := by
  cases res <;> rfl

theorem mergeStep_height (acc : ActressInfo) (res : Option ActressInfo) :
    (mergeStep acc res).height = fieldStep acc.height (fieldCand ActressInfo.height res) := by
  cases res <;> rfl

theorem mergeStep_measurements (acc : ActressInfo) (res : Option ActressInfo) :
    (mergeStep acc res).measurements =
      fieldStep acc.measurements (fieldCand ActressInfo.measurements res) := by
  cases res <;> rfl

theorem foldl_mergeStep_proj (g : ActressInfo → Option Str)
    (hg : ∀ acc res, g (mergeStep acc res) = fieldStep (g acc) (fieldCand g res)) :
    ∀ (rs : List (Option ActressInfo)) (acc : ActressInfo),
      g (rs.foldl mergeStep acc) = (rs.map (fieldCand g)).foldl fieldStep (g acc)
  | [], _ => rfl
  | r :: rs, acc => by
    simp only [List.foldl_cons, List.map_cons]
    rw [foldl_mergeStep_proj g hg rs (mergeStep acc r), hg]

theorem foldl_fieldStep_truthy (cs : List (Option Str)) (a : Option Str)
    (ha : truthyO a = true) : cs.foldl fieldStep a = a := by
  induction cs with
  | nil => rfl
  | cons c cs ih =>
    have hstep : fieldStep a c = a := by
      simp [fieldStep, ha]
    simp only [List.foldl_cons, hstep, ih]

theorem foldl_fieldStep_none (cs : List (Option Str)) :
    cs.foldl fieldStep none = firstTruthy cs := by
  induction cs with
  | nil => rfl
  | cons c cs ih =>
    simp only [List.foldl_cons, firstTruthy, List.findSome?_cons]
    cases c with
    | none => simpa [fieldStep, truthyO, firstTruthy] using ih
    | some v =>
      by_cases hv : v.isEmpty
      · simpa [fieldStep, truthyO, hv, firstTruthy] using ih
      · rw [show fieldStep none (some v) = some v by simp [fieldStep, truthyO, hv]]
        simp only [hv]
        exact foldl_fieldStep_truthy cs (some v) (by simp [truthyO, hv])

theorem pyOr_qmark_iff (o : Option Str) :
    pyOr o ['?'] = ['?'] ↔ (o = none ∨ o = some [] ∨ o = some ['?']) := by
  cases o with
  | none => simp [pyOr]
  | some v =>
    by_cases hv : v.isEmpty
    · have : v = [] := by simpa [List.isEmpty_iff] using hv
      simp [pyOr, hv, this]
    · have : v ≠ [] := by simpa [List.isEmpty_iff] using hv
      simp [pyOr, hv, this]

theorem ActressInfo.eq_of_fields {a b : ActressInfo} (h1 : a.year = b.year)
    (h2 : a.height = b.height) (h3 : a.measurements = b.measurements) : a = b := by
  cases a; cases b; cases h1; cases h2; cases h3; rfl

/-- C3, counterexample: the claim asserts that a merged record whose three
fields are all present but equal to the empty string is a different outcome
from "no information"; in the code `_format_actress_info("", "", "")` returns
`None`, exactly the same outcome as `_format_actress_info(None, None, None)`,
so the two are not distinguishable by the caller. -/
theorem claim_C3_counterexample :
    _format_actress_info (some []) (some []) (some []) = none ∧
      _format_actress_info (some []) (some []) (some []) =
        _format_actress_info none none none := by
  decide

/-- C3, amended: the lookup reports the "no information" outcome (`None`)
exactly when every one of the three merged fields is absent, the empty
string, or the literal string `"?"`; in particular an all-empty-string
record yields the very same outcome as the all-absent record. -/
theorem claim_C3_amended :
    (∀ y h m : Option Str,
        _format_actress_info y h m = none ↔
          ((y = none ∨ y = some [] ∨ y = some ['?']) ∧
           (h = none ∨ h = some [] ∨ h = some ['?']) ∧
           (m = none ∨ m = some [] ∨ m = some ['?']))) ∧
      _format_actress_info (some []) (some []) (some []) =
        _format_actress_info none none none := by
  constructor
  · intro y h m
    simp only [_format_actress_info]
    split_ifs with hc
    · exact iff_of_true rfl
        ⟨(pyOr_qmark_iff y).mp hc.1, (pyOr_qmark_iff h).mp hc.2.1,
          (pyOr_qmark_iff m).mp hc.2.2⟩
    · refine iff_of_false (by simp) fun hconj => hc ?_
      exact ⟨(pyOr_qmark_iff y).mpr hconj.1, (pyOr_qmark_iff h).mpr hconj.2.1,
        (pyOr_qmark_iff m).mpr hconj.2.2⟩
  · decide

/-- C8, counterexample: the claim says the merged value of each field is the
first non-null value in source priority order; feeding source A a year equal
to the empty string and source B the year "1990", the code skips the falsy
empty string and merges "1990", while a first-non-null merge would keep the
empty string. -/
theorem claim_C8_counterexample :
    mergeActressResults
        [some ⟨some [], none, none⟩, some ⟨some ['1', '9', '9', '0'], none, none⟩, none] ≠
      specFirstNonNullMerge
        [some ⟨some [], none, none⟩, some ⟨some ['1', '9', '9', '0'], none, none⟩, none] := by
  decide

/-- C8, amended: the merge is field-wise first *truthy* value in the fixed
priority order av2ch, Wikipedia, av-wiki — a field that is absent or equal
to the empty string is skipped (Python truthiness), everything else is
first-wins; the claim's concrete example (A has year "1990", B has height
"170") merges as stated. -/
theorem claim_C8_amended :
    (∀ rs : List (Option ActressInfo),
        mergeActressResults rs =
          ⟨firstTruthy (rs.map (fieldCand ActressInfo.year)),
           firstTruthy (rs.map (fieldCand ActressInfo.height)),
           firstTruthy (rs.map (fieldCand ActressInfo.measurements))⟩) ∧
      mergeActressResults
          [some ⟨some ("1990").toList, none, none⟩,
           some ⟨none, some ("170").toList, none⟩, none] =
        ⟨some ("1990").toList, some ("170").toList, none⟩ := by
  constructor
  · intro rs
    apply ActressInfo.eq_of_fields
    · rw [show mergeActressResults rs = rs.foldl mergeStep ⟨none, none, none⟩ from rfl,
        foldl_mergeStep_proj ActressInfo.year mergeStep_year]
      exact foldl_fieldStep_none _
    · rw [show mergeActressResults rs = rs.foldl mergeStep ⟨none, none, none⟩ from rfl,
        foldl_mergeStep_proj ActressInfo.height mergeStep_height]
      exact foldl_fieldStep_none _
    · rw [show mergeActressResults rs = rs.foldl mergeStep ⟨none, none, none⟩ from rfl,
        foldl_mergeStep_proj ActressInfo.measurements mergeStep_measurements]
      exact foldl_fieldStep_none _
  · decide

/-! ### Crawl isolation, truncation, handler fallback, cover resolution -/

/-- C4, counterexample: two of the claim's enumerated failure modes do not
yield an empty result list.  First, `_crawl` never consults
`response.status` (lines 195-207 have no status check, unlike the cover
fetch and the actress fetchers), so a 404 response from supjav.com whose
body contains one match contributes that result, not `[]`.  Second, an
extraction exception is caught inside `_parse_html` (lines 299-302), which
returns the partially accumulated `results[:5]`: a missav response with
three matches interrupted after two appends contributes those two results,
not `[]`. -/
theorem claim_C4_counterexample :
    (_crawl true
          (Except.ok
            (⟨404, ("https://supjav.com/?s=AB").toList,
              ⟨[], [((("u1").toList), (("t1").toList))], [], [], [], [], none,
                Except.error ()⟩, none⟩ : CrawlResponse))
          (("AB").toList) SearchType.unc =
        [⟨("t1").toList, ("u1").toList⟩] ∧
        [(⟨("t1").toList, ("u1").toList⟩ : SearchResult)] ≠ []) ∧
      _crawl true
          (Except.ok
            (⟨200, ("https://missav.ai/search/AB").toList,
              ⟨[], [],
                [((("c1").toList), some ((("u1").toList), (("t1").toList))),
                 ((("c2").toList), some ((("u2").toList), (("t2").toList))),
                 ((("c3").toList), some ((("u3").toList), (("t3").toList)))],
                [], [], [], none, Except.error ()⟩, some 2⟩ : CrawlResponse))
          (("AB").toList) SearchType.unc =
        [⟨("t1").toList, ("u1").toList⟩, ⟨("t2").toList, ("u2").toList⟩] := by
  refine ⟨⟨by decide, by decide⟩, by decide⟩

/-- C4, amended: the failure modes that reach `_crawl`'s `try/except` — any
exception raised by the network call or the body read — are recovered
locally: `_crawl` is total and yields `[]` for that source, and replacing
any one source's outcome by such a failure leaves `_search_worker`'s output
exactly the output computed from the sibling sources alone, for both
categories and both ranking configurations.  A non-200 status, however, is
not a failure mode: the status is never consulted, so the body is parsed
identically for every status and can contribute results; and an extraction
exception is caught inside `_parse_html` itself, which contributes the
partially accumulated `results[:5]` — always a prefix of what the source
would have contributed without the exception, possibly nonempty. -/
theorem claim_C4_amended :
    (∀ (clientUp : Bool) (e code : Str) (st : SearchType),
        _crawl clientUp (Except.error e) code st = []) ∧
      (∀ (clientUp : Bool) (s1 s2 : Nat) (fu : Str) (o : RegexOracle)
        (pe : Option Nat) (code : Str) (st : SearchType),
        _crawl clientUp (Except.ok ⟨s1, fu, o, pe⟩) code st =
          _crawl clientUp (Except.ok ⟨s2, fu, o, pe⟩) code st) ∧
      (∀ (clientUp : Bool) (o : RegexOracle) (n : Nat) (fu code : Str)
        (st : SearchType),
        _parse_html_interrupted clientUp o n fu code st <+:
          _parse_html clientUp o fu code st) ∧
      ∀ (mosaicFirst clientUp : Bool) (st : SearchType)
        (pre post : List (List SearchResult)) (e code : Str),
        _search_worker mosaicFirst st
            (pre ++ [_crawl clientUp (Except.error e) code st] ++ post) =
          _search_worker mosaicFirst st (pre ++ post) := by
  have hcrawl : ∀ (clientUp : Bool) (e code : Str) (st : SearchType),
      _crawl clientUp (Except.error e) code st = [] := by
    intro clientUp e code st
    cases clientUp <;> rfl
  refine ⟨hcrawl, ?_, ?_, ?_⟩
  · intro clientUp s1 s2 fu o pe code st
    cases clientUp <;> rfl
  · intro cu o n fu code st
    unfold _parse_html_interrupted _parse_html
    rcases hp : parseBody cu o fu code st with rs | rs
    · show (rs.take n).take 5 <+: rs.take 5
      have h : (rs.take n).take 5 = (rs.take 5).take n := by
        rw [List.take_take, List.take_take, Nat.min_comm]
      rw [h]
      exact List.take_prefix _ _
    · show ([] : List SearchResult) <+: rs
      exact List.nil_prefix
  · intro m cu st pre post e code
    rw [hcrawl]
    have hf : (pre ++ [([] : List SearchResult)] ++ post).flatten =
        (pre ++ post).flatten := by
      simp
    simp only [_search_worker, hf]

theorem jav777FetchDetail_length (d : Except Unit Str) (c du : Str) :
    (jav777FetchDetail d c du).length ≤ 5 := by
  cases d with
  | error e => simp [jav777FetchDetail]
  | ok dh =>
    simp only [jav777FetchDetail]
    split <;> simp

theorem parseBody_inr_length {clientUp : Bool} {o : RegexOracle} {final_url code : Str}
    {st : SearchType} {rs : List SearchResult}
    (h : parseBody clientUp o final_url code st = Sum.inr rs) : rs.length ≤ 5 := by
  unfold parseBody at h
  repeat' split at h
  all_goals first
    | exact Sum.noConfusion h
    | (injection h with h2; exact h2 ▸ jav777FetchDetail_length _ _ _)

/-- C7 (confirmed): `_parse_html` returns at most 5 results on every branch,
for every oracle (i.e. every possible regex match list), final URL, code and
search type — the normal path is truncated by `results[:5]` and the jav777
early return produces at most one result. -/
theorem claim_C7 (clientUp : Bool) (o : RegexOracle) (final_url code : Str)
    (st : SearchType) : (_parse_html clientUp o final_url code st).length ≤ 5 := by
  unfold _parse_html
  rcases hp : parseBody clientUp o final_url code st with rs | rs
  · show (rs.take 5).length ≤ 5
    rw [List.length_take]
    exact min_le_left _ _
  · exact parseBody_inr_length hp

/-- Concrete evaluation check: with exactly 7 supjav matches the kept list
has length 5. -/
theorem parse_html_take_five_example :
    (_parse_html true
        ⟨[], [(("u1").toList, ("t1").toList), (("u2").toList, ("t2").toList),
            (("u3").toList, ("t3").toList), (("u4").toList, ("t4").toList),
            (("u5").toList, ("t5").toList), (("u6").toList, ("t6").toList),
            (("u7").toList, ("t7").toList)],
          [], [], [], [], none, Except.error ()⟩
        (("https://supjav.com/zh/?s=x").toList) (("AB").toList)
        SearchType.unc).length = 5 := by
  decide

/-- C6 (confirmed): if both category lists are empty after blocklist
filtering, the merged aggregate is the empty list (never an absent value —
the model's aggregate is a total `List`), and the handler emits the fallback
message, one line of which contains the general-search-engine URL built from
the code. -/
theorem claim_C6 (error_keywords : List Str) (cen unc : List SearchResult) (code : Str)
    (hc : filter_results error_keywords cen = [])
    (hu : filter_results error_keywords unc = []) :
    filter_results error_keywords cen ++ filter_results error_keywords unc = [] ∧
      search_handler_select error_keywords cen unc code =
        HandlerOutcome.fallback (fallbackMsg code) ∧
      ∃ line ∈ fallbackMsg code, googleUrl code <:+: line := by
  refine ⟨by rw [hc, hu]; rfl, ?_, ?_⟩
  · simp only [search_handler_select, hc, hu]
    rfl
  · exact ⟨("Google 搜索: ").toList ++ googleUrl code, by simp [fallbackMsg],
      (List.suffix_append _ _).isInfix⟩

/-- C6 witness: the claim's hypotheses and conclusion at a concrete input
(one censored result whose title contains the blocked keyword, empty
uncensored list). -/
theorem claim_C6_witness :
    search_handler_select [("x").toList] [⟨("x1").toList, ("u").toList⟩] []
        (("AB").toList) =
      HandlerOutcome.fallback (fallbackMsg (("AB").toList)) :=
  (claim_C6 [("x").toList] [⟨("x1").toList, ("u").toList⟩] [] (("AB").toList)
      (by decide) (by decide)).2.1

theorem coverScan_eq_findSome? (oracle : Str → Str → Option Str) (host html : Str) :
    ∀ rules : List RuleItem,
      coverScan oracle host html rules =
        (rules.findSome? (coverHit oracle host html)).map (resolveCoverUrl host)
  | [] => rfl
  | item :: rest => by
    rw [List.findSome?_cons]
    unfold coverScan coverHit
    cases hp : parseRuleItem item with
    | mk d r =>
      cases d with
      | none => exact coverScan_eq_findSome? oracle host html rest
      | some domain =>
        cases r with
        | none => exact coverScan_eq_findSome? oracle host html rest
        | some regex =>
          by_cases hcond : domain = host ∧ ¬regex.isEmpty
          · simp only [if_pos hcond]
            cases horacle : oracle regex html with
            | none => exact coverScan_eq_findSome? oracle host html rest
            | some g => rfl
          · simp only [if_neg hcond]
            exact coverScan_eq_findSome? oracle host html rest

/-- C5 (confirmed): when the detail page URL has a host (a third
slash-separated segment, as every absolute http(s) URL does),
`_get_cover_url_from_html` never raises: it returns, as a value, the
resolution of the first capture among the rules scanned in order — a rule
contributes exactly when its domain equals the host and its truthy pattern
matches — where a capture that does not start with "http" is resolved
against `https://{host}`; and when no rule contributes, the result is the
null value, not an error. -/
theorem claim_C5 (oracle : Str → Str → Option Str) (rules : List RuleItem)
    (url html host : Str) (hhost : (pySplit '/' url)[2]? = some host) :
    _get_cover_url_from_html oracle rules url html =
        Except.ok ((rules.findSome? (coverHit oracle host html)).map (resolveCoverUrl host)) ∧
      ((∀ item ∈ rules, coverHit oracle host html item = none) →
        _get_cover_url_from_html oracle rules url html = Except.ok none) := by
  have hmain : _get_cover_url_from_html oracle rules url html =
      Except.ok ((rules.findSome? (coverHit oracle host html)).map (resolveCoverUrl host)) := by
    unfold _get_cover_url_from_html
    rw [hhost]
    show Except.ok (coverScan oracle host html rules) = _
    rw [coverScan_eq_findSome?]
  refine ⟨hmain, fun hall => ?_⟩
  rw [hmain, List.findSome?_eq_none_iff.mpr hall]
  rfl

/-- C5 witness: a concrete URL, rule table and oracle; the first rule's
domain matches the host and its pattern captures a host-relative path, which
is resolved against `https://img.site`. -/
theorem claim_C5_witness :
    _get_cover_url_from_html
        (fun r h =>
          if r = ("PAT").toList ∧ h = ("HTML").toList then some (("/cover.jpg").toList)
          else none)
        [RuleItem.strRule (("img.site|PAT").toList)]
        (("https://img.site/detail/1.html").toList) (("HTML").toList) =
      Except.ok (some (("https://img.site/cover.jpg").toList)) := by
  rw [(claim_C5
      (fun r h =>
        if r = ("PAT").toList ∧ h = ("HTML").toList then some (("/cover.jpg").toList)
        else none)
      [RuleItem.strRule (("img.site|PAT").toList)]
      (("https://img.site/detail/1.html").toList) (("HTML").toList)
      (("img.site").toList) (by decide)).1]
  rfl

/-! ### Stability and sortedness of the key-based sort -/

theorem filter_orderedInsert_key_pos {α : Type} (key : α → Nat) (a : α) (n : Nat)
    (ha : key a = n) :
    ∀ s : List α,
      (List.orderedInsert (keyRel key) a s).filter (fun x => decide (key x = n)) =
        a :: s.filter (fun x => decide (key x = n))
  | [] => by simp [List.orderedInsert, ha]
  | b :: s => by
    simp only [List.orderedInsert]
    split
    · simp [ha]
    · next hr =>
      have hb : ¬key b = n := by
        have : key b < key a := Nat.lt_of_not_le (fun hle => hr hle)
        omega
      rw [List.filter_cons_of_neg (by simpa using hb),
        List.filter_cons_of_neg (by simpa using hb)]
      exact filter_orderedInsert_key_pos key a n ha s

theorem filter_orderedInsert_key_neg {α : Type} (key : α → Nat) (a : α) (n : Nat)
    (ha : ¬key a = n) :
    ∀ s : List α,
      (List.orderedInsert (keyRel key) a s).filter (fun x => decide (key x = n)) =
        s.filter (fun x => decide (key x = n))
  | [] => by simp [List.orderedInsert, ha]
  | b :: s => by
    simp only [List.orderedInsert]
    split
    · simp [ha]
    · by_cases hb : key b = n
      · rw [List.filter_cons_of_pos (by simpa using hb),
          List.filter_cons_of_pos (by simpa using hb),
          filter_orderedInsert_key_neg key a n ha s]
      · rw [List.filter_cons_of_neg (by simpa using hb),
          List.filter_cons_of_neg (by simpa using hb)]
        exact filter_orderedInsert_key_neg key a n ha s

/-- Stability of the modelled `sorted`: the subsequence of elements with any
fixed key value is exactly the input's subsequence with that key value. -/
theorem filter_pySortByKey {α : Type} (key : α → Nat) (n : Nat) :
    ∀ l : List α,
      (pySortByKey key l).filter (fun x => decide (key x = n)) =
        l.filter (fun x => decide (key x = n))
  | [] => rfl
  | a :: l => by
    have ih := filter_pySortByKey key n l
    simp only [pySortByKey] at ih ⊢
    simp only [List.insertionSort]
    by_cases ha : key a = n
    · rw [filter_orderedInsert_key_pos key a n ha, ih,
        List.filter_cons_of_pos (by simpa using ha)]
    · rw [filter_orderedInsert_key_neg key a n ha, ih,
        List.filter_cons_of_neg (by simpa using ha)]

theorem pairwise_pySortByKey {α : Type} (key : α → Nat) (l : List α) :
    (pySortByKey key l).Pairwise (fun a b => key a ≤ key b) := by
  haveI : IsTotal α (keyRel key) := ⟨fun a b => Nat.le_total _ _⟩
  haveI : IsTrans α (keyRel key) := ⟨fun _ _ _ => Nat.le_trans⟩
  exact List.sorted_insertionSort (keyRel key) l

theorem perm_pySortByKey {α : Type} (key : α → Nat) (l : List α) :
    (pySortByKey key l).Perm l :=
  List.perm_insertionSort (keyRel key) l

theorem search_worker_cen_eq (mosaicFirst : Bool) (rss : List (List SearchResult)) :
    _search_worker mosaicFirst SearchType.cen rss =
      pySortByKey (fun r => keyNat (cenKey mosaicFirst r)) rss.flatten := by
  cases mosaicFirst <;> rfl

/-- C1, counterexample: with `mosaic_reduce_first = true` the claim makes
decensored-tag presence the first-priority key, and the spec (§4.2) defines
that tag as the bracketed marker `[破解]` prefixed onto titles.  A result
whose title carries the marker (as the 7mmtv/missav branches produce it,
without the substring 无码破解) and a result without it compare equal under
the code's key, so the tagged result stays *after* the untagged one —
contradicting "a result missing the first-priority tag sorts after one
having it". -/
theorem claim_C1_counterexample :
    _search_worker true SearchType.cen
        [[⟨("B").toList, ("u2").toList⟩, ⟨("[破解] A").toList, ("u1").toList⟩]] =
        [⟨("B").toList, ("u2").toList⟩, ⟨("[破解] A").toList, ("u1").toList⟩] ∧
      specHasDecTag (("[破解] A").toList) = true ∧
      specHasDecTag (("B").toList) = false := by
  decide

/-- C1, amended: the two sort keys are presence of the trigger *substrings*
无码破解 (decensored) and 中文字幕 (subtitled) in the result title — not the
bracketed tag markers; `mosaic_reduce_first` selects which substring is the
first-priority key.  With that reading the claim holds: the censored sort is
a permutation of the collected results, pairwise ordered by the two-key
tie-break (a result lacking the first-priority substring sorts after one
containing it, ties broken by the second), it is stable (results with
identical key tuples retain their relative input order), and uncensored
results are returned unranked. -/
theorem claim_C1_amended :
    (∀ (m : Bool) (rss : List (List SearchResult)),
        (_search_worker m SearchType.cen rss).Perm rss.flatten) ∧
      (∀ (m : Bool) (rss : List (List SearchResult)),
        (_search_worker m SearchType.cen rss).Pairwise
          (fun a b => keyNat (cenKey m a) ≤ keyNat (cenKey m b))) ∧
      (∀ (m : Bool) (rss : List (List SearchResult)) (k : Bool × Bool),
        (_search_worker m SearchType.cen rss).filter (fun r => decide (cenKey m r = k)) =
          rss.flatten.filter (fun r => decide (cenKey m r = k))) ∧
      ∀ (m : Bool) (rss : List (List SearchResult)),
        _search_worker m SearchType.unc rss = rss.flatten := by
  have hkeyNat_inj : ∀ p q : Bool × Bool, keyNat p = keyNat q ↔ p = q := by decide
  refine ⟨?_, ?_, ?_, ?_⟩
  · intro m rss
    rw [search_worker_cen_eq]
    exact perm_pySortByKey _ _
  · intro m rss
    rw [search_worker_cen_eq]
    exact pairwise_pySortByKey _ _
  · intro m rss k
    rw [search_worker_cen_eq]
    have hpred : ∀ r : SearchResult,
        decide (cenKey m r = k) = decide (keyNat (cenKey m r) = keyNat k) := by
      intro r
      by_cases h : cenKey m r = k
      · simp [h]
      · have hn : ¬keyNat (cenKey m r) = keyNat k := fun hn => h ((hkeyNat_inj _ _).mp hn)
        simp [h, hn]
    simp only [hpred]
    exact filter_pySortByKey (fun r => keyNat (cenKey m r)) (keyNat k) rss.flatten
  · intro m rss
    cases m <;> rfl

/-! ### The normalizer's priority order and span provenance -/

/-- C2 (confirmed): `_separate` tries the four patterns in fixed priority
order and returns the first match's full span: whenever pattern class 1 finds
a match in the (em-dash-cleaned) text, that match is the result regardless of
what the other classes would match, and in general the first class in order
1-2-3-4 whose search succeeds decides the returned span. -/
theorem claim_C2 :
    (∀ t m : Str, reSearch pat1 (pyCleanText t) = some m → _separate t = some m) ∧
      (∀ t m : Str, reSearch pat1 (pyCleanText t) = none →
        reSearch pat2 (pyCleanText t) = some m → _separate t = some m) ∧
      (∀ t m : Str, reSearch pat1 (pyCleanText t) = none →
        reSearch pat2 (pyCleanText t) = none →
        reSearch pat3 (pyCleanText t) = some m → _separate t = some m) ∧
      ∀ t m : Str, reSearch pat1 (pyCleanText t) = none →
        reSearch pat2 (pyCleanText t) = none →
        reSearch pat3 (pyCleanText t) = none →
        reSearch pat4 (pyCleanText t) = some m → _separate t = some m := by
  have hne : ∀ (t : Str) (p : RePattern) (m : Str), p ∈ sepMatchers →
      reSearch p (pyCleanText t) = some m → ¬t.isEmpty = true := by
    intro t p m hp h he
    rw [List.isEmpty_iff.mp he] at h
    fin_cases hp
    · rw [(by decide : reSearch pat1 (pyCleanText []) = none)] at h
      exact Option.noConfusion h
    · rw [(by decide : reSearch pat2 (pyCleanText []) = none)] at h
      exact Option.noConfusion h
    · rw [(by decide : reSearch pat3 (pyCleanText []) = none)] at h
      exact Option.noConfusion h
    · rw [(by decide : reSearch pat4 (pyCleanText []) = none)] at h
      exact Option.noConfusion h
  refine ⟨?_, ?_, ?_, ?_⟩
  · intro t m h1
    simp only [_separate, if_neg (hne t pat1 m (by simp [sepMatchers]) h1),
      sepMatchers, List.findSome?_cons, h1]
  · intro t m h1 h2
    simp only [_separate, if_neg (hne t pat2 m (by simp [sepMatchers]) h2),
      sepMatchers, List.findSome?_cons, h1, h2]
  · intro t m h1 h2 h3
    simp only [_separate, if_neg (hne t pat3 m (by simp [sepMatchers]) h3),
      sepMatchers, List.findSome?_cons, h1, h2, h3]
  · intro t m h1 h2 h3 h4
    simp only [_separate, if_neg (hne t pat4 m (by simp [sepMatchers]) h4),
      sepMatchers, List.findSome?_cons, h1, h2, h3, h4]

/-- C2 witness: in `"abc123 12345-67"` pattern class 3 matches `"abc123"`
earlier in the text, but class 1 matches `"12345-67"`, and `_separate`
returns the class-1 match. -/
theorem claim_C2_witness :
    reSearch pat3 (pyCleanText (("abc123 12345-67").toList)) =
        some (("abc123").toList) ∧
      _separate (("abc123 12345-67").toList) = some (("12345-67").toList) :=
  ⟨by decide, claim_C2.1 (("abc123 12345-67").toList) (("12345-67").toList) (by decide)⟩

theorem searchAux_within (p : RePattern) :
    ∀ (l : Str) (prev : Option Char) (m : Str), searchAux p prev l = some m → m <:+: l
  | [], prev, m => by
    intro h
    unfold searchAux at h
    cases htry : tryAt p prev [] with
    | some len =>
      rw [htry] at h
      cases h
      exact List.nil_infix
    | none =>
      rw [htry] at h
      exact Option.noConfusion h
  | c :: t, prev, m => by
    intro h
    unfold searchAux at h
    cases htry : tryAt p prev (c :: t) with
    | some len =>
      rw [htry] at h
      cases h
      exact (List.take_prefix len (c :: t)).isInfix
    | none =>
      rw [htry] at h
      exact (searchAux_within p t (some c) m h).trans (List.suffix_cons c t).isInfix

theorem findSome?_reSearch_within :
    ∀ (ps : List RePattern) (cl m : Str),
      ps.findSome? (fun p => reSearch p cl) = some m → m <:+: cl
  | [], _, _ => fun h => Option.noConfusion h
  | p :: ps, cl, m => fun h => by
    rw [List.findSome?_cons] at h
    cases hr : reSearch p cl with
    | some v =>
      rw [hr] at h
      injection h with h2
      exact h2 ▸ searchAux_within p cl none v hr
    | none =>
      rw [hr] at h
      exact findSome?_reSearch_within ps cl m h

/-- C10 (confirmed): whenever `_separate` returns a code, that code is a
contiguous substring of the input text after replacing every em-dash with a
hyphen — the matcher returns `take len` of a suffix of the scanned text, so
no character is fabricated, reordered or case-changed. -/
theorem claim_C10 (t m : Str) (h : _separate t = some m) : m <:+: pyCleanText t := by
  by_cases he : t.isEmpty = true
  · rw [_separate, if_pos he] at h
    exact Option.noConfusion h
  · rw [_separate, if_neg he] at h
    exact findSome?_reSearch_within sepMatchers (pyCleanText t) m h

/-- C10 witness: `"ABC—123"` yields the code `"ABC-123"`, an infix of the
em-dash-cleaned text. -/
theorem claim_C10_witness :
    (("ABC-123").toList) <:+: pyCleanText (("ABC—123").toList) :=
  claim_C10 (("ABC—123").toList) (("ABC-123").toList) (by decide)

end SearchThat
